import Mathlib

/-!
# Verification of the LinuxHandController gesture-control core

Shallow embedding, in Lean 4 over exact rational arithmetic, of the
gesture-recognition and signal-conditioning pipeline of the
LinuxHandController repository:

* `src/filters/smoothing.py` — `ExponentialMovingAverage`, `RateLimiter`,
  `map_angle_to_level`;
* `src/gestures/claw_detector.py` — `ClawDetector.detect` with hysteresis;
* `src/gestures/rotation_calculator.py` — `RotationCalculator.calculate_roll`
  with 360° unwrapping;
* `src/main.py` — `handle_volume_control`, `handle_brightness_control`, and
  the per-frame dispatch loop of `main`.

Python floats are modelled as exact rationals (`ℚ`); the arithmetic the
claims are about (sums, differences, division and multiplication by 10,
comparisons, truncation by `int(...)`) is exact on the inputs involved.
Mutable objects are modelled by explicit state passing: each Python method
becomes a Lean function from the old state (plus arguments) to its result
paired with the new state.  `time.time()` inside `RateLimiter.should_update`
is modelled by an explicit `now` argument.

The geometric front end (3D distances via `sqrt` in `geometry.distance_3d`,
`np.arctan2` in the rotation calculator) produces real-valued features from
the 21 landmarks; those transcendental functions are not used by any claim,
so a hand observation is embedded by the features the code derives from it:
its pairwise fingertip distances, its fingertip-to-palm distances, and the
raw roll angle, all as rationals.  Everything downstream of those features
is embedded instruction by instruction.
-/

/-- Python's `int(x)` applied to a float: truncation toward zero
(`int(9.9) = 9`, `int(-9.9) = -9`). -/
def pyInt (q : ℚ) : ℤ :=
  if 0 ≤ q then ⌊q⌋ else ⌈q⌉

/-! ## `src/filters/smoothing.py` -/

/-- State of `ExponentialMovingAverage`: the configured `_alpha` and the
stored `_value` (`None` after construction or `reset`). -/
structure ExponentialMovingAverage where
  alpha : ℚ
  value : Option ℚ
deriving DecidableEq, Repr

namespace ExponentialMovingAverage

/-- Constructor `ExponentialMovingAverage.__init__`: `self._value = None`. -/
def init (alpha : ℚ) : ExponentialMovingAverage :=
  { alpha := alpha, value := none }

/-- Method `ExponentialMovingAverage.update`: if `self._value is None` store and
return `new_value`; else store and return
`alpha * new_value + (1 - alpha) * self._value`. -/
def update (s : ExponentialMovingAverage) (new_value : ℚ) :
    ℚ × ExponentialMovingAverage :=
  match s.value with
  | none => (new_value, { s with value := some new_value })
  | some v =>
      let y := s.alpha * new_value + (1 - s.alpha) * v
      (y, { s with value := some y })

/-- Method `ExponentialMovingAverage.reset`: `self._value = None`. -/
def reset (s : ExponentialMovingAverage) : ExponentialMovingAverage :=
  { s with value := none }

end ExponentialMovingAverage

/-- State of `RateLimiter`: `_min_interval` (seconds, set to
`min_interval_ms / 1000` at construction) and `_last_update`
(seconds; `0` after construction or `reset`). -/
structure RateLimiter where
  min_interval : ℚ
  last_update : ℚ
deriving DecidableEq, Repr

namespace RateLimiter

/-- Constructor `RateLimiter.__init__`: `self._min_interval = min_interval_ms / 1000.0`,
`self._last_update = 0`. -/
def init (min_interval_ms : ℚ) : RateLimiter :=
  { min_interval := min_interval_ms / 1000, last_update := 0 }

/-- Method `RateLimiter.should_update`: with `current_time` standing for the
`time.time()` call, return `True` and record `current_time` when
`current_time - self._last_update >= self._min_interval`, else return
`False` with the state unchanged. -/
def should_update (s : RateLimiter) (current_time : ℚ) : Bool × RateLimiter :=
  if s.min_interval ≤ current_time - s.last_update then
    (true, { s with last_update := current_time })
  else
    (false, s)

/-- Method `RateLimiter.reset`: `self._last_update = 0`. -/
def reset (s : RateLimiter) : RateLimiter :=
  { s with last_update := 0 }

end RateLimiter

/-- Function `map_angle_to_level(angle, current_level, deadzone)` from
`src/filters/smoothing.py`, line for line: deadzone passthrough, then the
counterclockwise branch mapping `[-180, -deadzone)` onto `[0, 50)`, then the
clockwise branch mapping `(deadzone, 180]` onto `[50, 100]`; `int(...)` is
`pyInt`. -/
def map_angle_to_level (angle : ℚ) (current_level : ℤ) (deadzone : ℚ) : ℤ :=
  if -deadzone ≤ angle ∧ angle ≤ deadzone then
    current_level
  else if angle < -deadzone then
    let angle2 := max angle (-180)
    let normalized := (angle2 + 180) / (180 - deadzone)
    pyInt (normalized * 50)
  else
    let angle2 := min angle 180
    let normalized := (angle2 - deadzone) / (180 - deadzone)
    pyInt (50 + normalized * 50)

/-! ## Hand observations

`Hand` (from `src/core/hand_tracker.py`) carries 21 3D landmarks and a
handedness label.  The pipeline consumes a hand only through the features
listed below, each computed by the source from the landmarks:

* `fingertip_pair_distances` — the six values
  `distance_3d(fingertips[i], fingertips[j])`, `i < j`, over the index,
  middle, ring and pinky tips (`ClawDetector._calculate_average_fingertip_distance`);
* `palm_distances` — the four values `distance_3d(tip, landmarks[MIDDLE_MCP])`
  (`ClawDetector.detect`, lines 58–64);
* `raw_angle` — `arctan2(palm_vector[1], palm_vector[0]) * 180 / pi` where
  `palm_vector = landmarks[INDEX_MCP] - landmarks[PINKY_MCP]`
  (`RotationCalculator.calculate_roll`, lines 30–35).

`distance_3d` and `arctan2` involve `sqrt`/`atan2`, which have no exact
rational form; since every claim is about the processing of these feature
values, the embedding takes the features themselves as the observation. -/
structure Hand where
  handedness : String
  fingertip_pair_distances : List ℚ
  palm_distances : List ℚ
  raw_angle : ℚ
deriving DecidableEq, Repr

/-! ## `src/gestures/claw_detector.py` -/

/-- Hysteresis multipliers (module constants of `claw_detector.py`). -/
def HYSTERESIS_SPREAD_MULTIPLIER : ℚ := 12 / 10

def HYSTERESIS_FINGER_REDUCTION : ℕ := 1

/-- State of `ClawDetector`: the three configured thresholds plus the
persistent `_is_claw` hysteresis bit (`False` at construction). -/
structure ClawDetector where
  max_fingertip_spread : ℚ
  max_palm_distance : ℚ
  min_fingers_close : ℤ
  is_claw : Bool
deriving DecidableEq, Repr

namespace ClawDetector

/-- Constructor `ClawDetector.__init__`. -/
def init (max_fingertip_spread max_palm_distance : ℚ)
    (min_fingers_close : ℤ) : ClawDetector :=
  { max_fingertip_spread := max_fingertip_spread
    max_palm_distance := max_palm_distance
    min_fingers_close := min_fingers_close
    is_claw := false }

/-- Method `ClawDetector._calculate_average_fingertip_distance`: the mean of the
pairwise fingertip distances (`np.mean`), `0.0` for an empty list. -/
def _calculate_average_fingertip_distance (distances : List ℚ) : ℚ :=
  if distances.length = 0 then 0 else distances.sum / distances.length

/-- Method `ClawDetector.detect`, lines 56–83: compute the fingertip spread and the
count of fingertips closer to the palm than `max_palm_distance`, pick the
loose thresholds when `_is_claw` is already set and the tight ones
otherwise, classify, and store the result back into `_is_claw`. -/
def detect (d : ClawDetector) (hand : Hand) : Bool × ClawDetector :=
  let fingertip_spread :=
    _calculate_average_fingertip_distance hand.fingertip_pair_distances
  let fingers_close_to_palm : ℤ :=
    (hand.palm_distances.filter (fun dist => dist < d.max_palm_distance)).length
  let spread_threshold :=
    if d.is_claw then d.max_fingertip_spread * HYSTERESIS_SPREAD_MULTIPLIER
    else d.max_fingertip_spread
  let fingers_threshold :=
    if d.is_claw then max 2 (d.min_fingers_close - HYSTERESIS_FINGER_REDUCTION)
    else d.min_fingers_close
  let is_claw :=
    fingertip_spread < spread_threshold ∧ fingers_threshold ≤ fingers_close_to_palm
  (is_claw, { d with is_claw := is_claw })

end ClawDetector

/-! ## `src/gestures/rotation_calculator.py` -/

/-- State of `RotationCalculator`: `_accumulated_angle`, `_last_raw_angle`,
`_baseline_angle` (the latter two `None` at construction and after
`reset`). -/
structure RotationCalculator where
  accumulated_angle : ℚ
  last_raw_angle : Option ℚ
  baseline_angle : Option ℚ
deriving DecidableEq, Repr

namespace RotationCalculator

/-- Constructor `RotationCalculator.__init__`. -/
def init : RotationCalculator :=
  { accumulated_angle := 0, last_raw_angle := none, baseline_angle := none }

/-- Method `RotationCalculator.calculate_roll`, lines 27–55: on the first call
(`_baseline_angle is None`) set the baseline and zero the accumulator;
otherwise, when `_last_raw_angle` is set, add the 360°-unwrapped difference
`raw_angle - _last_raw_angle` to the accumulator.  Always store
`raw_angle` as the new `_last_raw_angle`, and negate the returned
accumulated angle for a left hand. -/
def calculate_roll (r : RotationCalculator) (hand : Hand) :
    ℚ × RotationCalculator :=
  let raw_angle := hand.raw_angle
  let r1 :=
    if r.baseline_angle = none then
      { r with baseline_angle := some raw_angle, accumulated_angle := 0 }
    else
      match r.last_raw_angle with
      | some last =>
          let diff0 := raw_angle - last
          let diff :=
            if 180 < diff0 then diff0 - 360
            else if diff0 < -180 then diff0 + 360
            else diff0
          { r with accumulated_angle := r.accumulated_angle + diff }
      | none => r
  let r2 := { r1 with last_raw_angle := some raw_angle }
  (if hand.handedness = "Left" then -r2.accumulated_angle
   else r2.accumulated_angle, r2)

/-- Method `RotationCalculator.reset`. -/
def reset (_r : RotationCalculator) : RotationCalculator := init

end RotationCalculator

/-! ## `src/main.py`

The two controllers (`VolumeController`, `BrightnessController`) talk to the
OS through subprocesses; the external sink is modelled as an integer level
held in the orchestrator state below, `get_level()` reads it and
`set_level(v)` writes it.  A handler call is embedded as a function of the
rotation angle, the channel's smoother/limiter states, the level the sink
would report, the wall-clock time `now` (the `time.time()` inside
`RateLimiter.should_update`), and the previous accepted angle; it returns
the handler's return value, the updated smoother/limiter, and a record of
the sink calls it made. -/

/-- Constant `DEGREES_PER_10_PERCENT` (module constant of `main.py`). -/
def DEGREES_PER_10_PERCENT : ℚ := 10

/-- Observable outcome of one `handle_volume_control` /
`handle_brightness_control` call: the returned angle (stored by `main` as
the channel's new previous angle), the updated smoother and limiter
states, whether `controller.get_level()` was called, and the argument of
the `controller.set_level(...)` call when one was made. -/
structure HandlerResult where
  ret : ℚ
  smoother : ExponentialMovingAverage
  limiter : RateLimiter
  got_level : Bool
  sent_level : Option ℤ
deriving DecidableEq, Repr

/-- Function `handle_volume_control` (`main.py`, lines 161–197): smooth the angle;
with a previous angle present, truncate `angle_delta / 10.0 * 10` to an
integer change; when nonzero, read the current level, clamp
`current + change` into `[0, 100]`, and if the rate limiter opens, send it
and return the smoothed angle, else return the previous angle; when the
change is zero (or no previous angle exists) fall through to returning the
smoothed angle. -/
def handle_volume_control (rotation_angle : ℚ)
    (smoother : ExponentialMovingAverage) (current_level : ℤ)
    (limiter : RateLimiter) (now : ℚ) (prev_angle : Option ℚ) :
    HandlerResult :=
  let su := smoother.update rotation_angle
  let smoothed_angle := su.1
  match prev_angle with
  | some prev =>
      let angle_delta := smoothed_angle - prev
      let volume_change := pyInt (angle_delta / DEGREES_PER_10_PERCENT * 10)
      if volume_change ≠ 0 then
        let new_volume := max 0 (min 100 (current_level + volume_change))
        let lu := limiter.should_update now
        if lu.1 then
          ⟨smoothed_angle, su.2, lu.2, true, some new_volume⟩
        else
          ⟨prev, su.2, lu.2, true, none⟩
      else
        ⟨smoothed_angle, su.2, limiter, false, none⟩
  | none => ⟨smoothed_angle, su.2, limiter, false, none⟩

/-- Function `handle_brightness_control` (`main.py`, lines 200–236): identical to
`handle_volume_control` except that the candidate level is clamped into
`[5, 100]`. -/
def handle_brightness_control (rotation_angle : ℚ)
    (smoother : ExponentialMovingAverage) (current_level : ℤ)
    (limiter : RateLimiter) (now : ℚ) (prev_angle : Option ℚ) :
    HandlerResult :=
  let su := smoother.update rotation_angle
  let smoothed_angle := su.1
  match prev_angle with
  | some prev =>
      let angle_delta := smoothed_angle - prev
      let brightness_change := pyInt (angle_delta / DEGREES_PER_10_PERCENT * 10)
      if brightness_change ≠ 0 then
        let new_brightness := max 5 (min 100 (current_level + brightness_change))
        let lu := limiter.should_update now
        if lu.1 then
          ⟨smoothed_angle, su.2, lu.2, true, some new_brightness⟩
        else
          ⟨prev, su.2, lu.2, true, none⟩
      else
        ⟨smoothed_angle, su.2, limiter, false, none⟩
  | none => ⟨smoothed_angle, su.2, limiter, false, none⟩

/-- The mutable state of `main`'s loop (`main.py`, lines 41–69): the single
`ClawDetector`, the single `RotationCalculator` (both shared by every hand
of every frame), the per-channel smoothers, rate limiters and previous
angles, and the external sink levels the two controllers read and write. -/
structure MainState where
  claw_detector : ClawDetector
  rotation_calc : RotationCalculator
  volume_smoother : ExponentialMovingAverage
  brightness_smoother : ExponentialMovingAverage
  volume_limiter : RateLimiter
  brightness_limiter : RateLimiter
  prev_volume_angle : Option ℚ
  prev_brightness_angle : Option ℚ
  volume_level : ℤ
  brightness_level : ℤ
deriving DecidableEq, Repr

/-- The body of `main`'s `for idx, hand in enumerate(hands)` loop
(`main.py`, lines 95–140) for one hand: run claw detection; if claw,
compute the roll angle and dispatch to the side's handler (a `Right` hand
drives volume, a `Left` hand brightness); otherwise reset the shared
rotation calculator, and reset the side's smoother and clear its previous
angle. -/
def process_hand (st : MainState) (now : ℚ) (hand : Hand) : MainState :=
  let det := st.claw_detector.detect hand
  let is_claw := det.1
  let st := { st with claw_detector := det.2 }
  if is_claw then
    let roll := st.rotation_calc.calculate_roll hand
    let rotation_angle := roll.1
    let st := { st with rotation_calc := roll.2 }
    if hand.handedness = "Right" then
      let r := handle_volume_control rotation_angle st.volume_smoother
        st.volume_level st.volume_limiter now st.prev_volume_angle
      { st with
          prev_volume_angle := some r.ret
          volume_smoother := r.smoother
          volume_limiter := r.limiter
          volume_level := r.sent_level.getD st.volume_level }
    else if hand.handedness = "Left" then
      let r := handle_brightness_control rotation_angle st.brightness_smoother
        st.brightness_level st.brightness_limiter now st.prev_brightness_angle
      { st with
          prev_brightness_angle := some r.ret
          brightness_smoother := r.smoother
          brightness_limiter := r.limiter
          brightness_level := r.sent_level.getD st.brightness_level }
    else st
  else
    let st := { st with rotation_calc := st.rotation_calc.reset }
    if hand.handedness = "Right" then
      { st with
          volume_smoother := st.volume_smoother.reset
          prev_volume_angle := none }
    else if hand.handedness = "Left" then
      { st with
          brightness_smoother := st.brightness_smoother.reset
          prev_brightness_angle := none }
    else st

/-- One iteration of `main`'s `while True` loop over the frame's hands
(`main.py`, lines 87–141): when the frame has no hands at all, only the
shared rotation calculator is reset; then each hand is processed in
order. -/
def process_frame (st : MainState) (hands : List Hand) (now : ℚ) :
    MainState :=
  let st :=
    if hands.isEmpty then
      { st with rotation_calc := st.rotation_calc.reset }
    else st
  hands.foldl (fun s h => process_hand s now h) st

/-! Basic facts about `pyInt`. -/

theorem pyInt_eq_floor {q : ℚ} (h : 0 ≤ q) : pyInt q = ⌊q⌋ := by
  simp [pyInt, h]

theorem pyInt_nonneg {q : ℚ} (h : 0 ≤ q) : 0 ≤ pyInt q := by
  rw [pyInt_eq_floor h]
  exact Int.floor_nonneg.mpr h

theorem pyInt_le {q : ℚ} (c : ℤ) (h0 : 0 ≤ q) (h : q ≤ (c : ℚ)) :
    pyInt q ≤ c := by
  rw [pyInt_eq_floor h0]
  calc ⌊q⌋ ≤ ⌊(c : ℚ)⌋ := Int.floor_le_floor h
  _ = c := Int.floor_intCast c

theorem pyInt_lt {q : ℚ} (c : ℤ) (h0 : 0 ≤ q) (h : q < (c : ℚ)) :
    pyInt q < c := by
  rw [pyInt_eq_floor h0]
  exact Int.floor_lt.mpr (by exact_mod_cast h)

theorem pyInt_ge {q : ℚ} (c : ℤ) (h0 : 0 ≤ q) (h : (c : ℚ) ≤ q) :
    c ≤ pyInt q := by
  rw [pyInt_eq_floor h0]
  exact Int.le_floor.mpr h

/-- The loop state right after `main`'s initialization with the `AppConfig`
defaults (`max_fingertip_spread = 0.15`, `max_palm_distance = 0.20`,
`min_fingers_close = 3`, `smoothing_alpha = 0.3`,
`update_interval_ms = 150`), with both external sinks reporting level 50. -/
def init_state : MainState :=
  { claw_detector := ClawDetector.init (15/100) (20/100) 3
    rotation_calc := RotationCalculator.init
    volume_smoother := ExponentialMovingAverage.init (3/10)
    brightness_smoother := ExponentialMovingAverage.init (3/10)
    volume_limiter := RateLimiter.init 150
    brightness_limiter := RateLimiter.init 150
    prev_volume_angle := none
    prev_brightness_angle := none
    volume_level := 50
    brightness_level := 50 }

/-- A hand whose four fingertips coincide with each other and with the palm
reference (all distances 0, a valid claw-positive observation per the
source), at the given raw roll angle. -/
def clawHand (handedness : String) (raw_angle : ℚ) : Hand :=
  ⟨handedness, [0, 0, 0, 0, 0, 0], [1/100, 1/100, 1/100, 1/100], raw_angle⟩

/-- A hand with widely spread fingertips (all pairwise and palm distances
1), never classified as claw under the default thresholds. -/
def openHand (handedness : String) : Hand :=
  ⟨handedness, [1, 1, 1, 1, 1, 1], [1, 1, 1, 1], 0⟩

/-! ## Claim theorems -/

/-- C7: the first `update(x)` of an `ExponentialMovingAverage` after
construction or `reset` returns exactly `x` and stores it with no smoothing;
every subsequent `update(x)` returns and stores `α·x + (1−α)·y_prev`; hence
on a fresh instance `update(a)` then `update(b)` returns `α·b + (1−α)·a`,
which is `0.3·b + 0.7·a` for `α = 0.3` and equals `b` exactly when
`α = 1` (for distinct inputs `a ≠ b`). -/
theorem ema_first_update_exact_then_blend
    (s : ExponentialMovingAverage) (α x a b v : ℚ) (hab : a ≠ b) :
    ((ExponentialMovingAverage.init α).update x).1 = x
  ∧ ((ExponentialMovingAverage.init α).update x).2.value = some x
  ∧ (s.reset.update x).1 = x
  ∧ (s.reset.update x).2.value = some x
  ∧ (s.value = some v →
      (s.update x).1 = s.alpha * x + (1 - s.alpha) * v
      ∧ (s.update x).2.value = some (s.alpha * x + (1 - s.alpha) * v))
  ∧ ((((ExponentialMovingAverage.init α).update a).2.update b).1
       = α * b + (1 - α) * a)
  ∧ (α = 3/10 →
      (((ExponentialMovingAverage.init α).update a).2.update b).1
        = 3/10 * b + 7/10 * a)
  ∧ ((((ExponentialMovingAverage.init α).update a).2.update b).1 = b ↔ α = 1) := by
  refine ⟨?_, ?_, ?_, ?_, ?_, ?_, ?_, ?_⟩
  · simp [ExponentialMovingAverage.init, ExponentialMovingAverage.update]
  · simp [ExponentialMovingAverage.init, ExponentialMovingAverage.update]
  · simp [ExponentialMovingAverage.reset, ExponentialMovingAverage.update]
  · simp [ExponentialMovingAverage.reset, ExponentialMovingAverage.update]
  · intro hv
    simp [ExponentialMovingAverage.update, hv]
  · simp [ExponentialMovingAverage.init, ExponentialMovingAverage.update]
  · intro hα
    have hv : (((ExponentialMovingAverage.init α).update a).2.update b).1
        = α * b + (1 - α) * a := by
      simp [ExponentialMovingAverage.init, ExponentialMovingAverage.update]
    rw [hv, hα]
    ring
  · simp only [ExponentialMovingAverage.init, ExponentialMovingAverage.update]
    constructor
    · intro hEq
      simp at hEq
      have hfac : (α - 1) * (b - a) = 0 := by linarith
      rcases mul_eq_zero.mp hfac with h1 | h2
      · linarith
      · exact absurd (by linarith : a = b) hab
    · intro hα
      simp [hα]

/-- C7 witness: with `α = 0.3`, `a = 1`, `b = 2`, the claim's conclusions
hold at a concrete input (`1 ≠ 2` discharges the hypothesis). -/
theorem ema_first_update_exact_then_blend_witness :
    (1 : ℚ) ≠ 2
  ∧ (((ExponentialMovingAverage.init (3/10)).update 1).1 = 1
     ∧ ((ExponentialMovingAverage.init (3/10)).update 1).2.value = some 1
     ∧ ((ExponentialMovingAverage.init (3/10)).reset.update 1).1 = 1
     ∧ ((ExponentialMovingAverage.init (3/10)).reset.update 1).2.value = some 1
     ∧ ((ExponentialMovingAverage.init (3/10)).value = some 1 →
         ((ExponentialMovingAverage.init (3/10)).update 1).1
           = (ExponentialMovingAverage.init (3/10)).alpha * 1
             + (1 - (ExponentialMovingAverage.init (3/10)).alpha) * 1
         ∧ ((ExponentialMovingAverage.init (3/10)).update 1).2.value
           = some ((ExponentialMovingAverage.init (3/10)).alpha * 1
             + (1 - (ExponentialMovingAverage.init (3/10)).alpha) * 1))
     ∧ ((((ExponentialMovingAverage.init (3/10)).update 1).2.update 2).1
          = (3/10) * 2 + (1 - 3/10) * 1)
     ∧ ((3:ℚ)/10 = 3/10 →
         (((ExponentialMovingAverage.init (3/10)).update 1).2.update 2).1
           = 3/10 * 2 + 7/10 * 1)
     ∧ ((((ExponentialMovingAverage.init (3/10)).update 1).2.update 2).1 = 2
          ↔ (3:ℚ)/10 = 1)) :=
  ⟨by norm_num,
   ema_first_update_exact_then_blend (ExponentialMovingAverage.init (3/10))
     (3/10) 1 1 2 1 (by norm_num)⟩

/-- C9: `RateLimiter.should_update` returns `true` and records `now` as the
new reference iff `now − last_reference ≥ min_interval`, else returns
`false` leaving the reference unchanged; after construction or `reset` the
reference is `0`, so the next call succeeds (for any `now ≥ min_interval`,
as any wall-clock time is); two calls within `min_interval` return `true`
then `false`, and a call `≥ min_interval` after an accepted one returns
`true` again. -/
theorem rate_limiter_iff_and_scenarios (s : RateLimiter) (ms now t1 t2 t3 : ℚ) :
    (s.min_interval ≤ now - s.last_update →
       s.should_update now = (true, { s with last_update := now }))
  ∧ (now - s.last_update < s.min_interval →
       s.should_update now = (false, s))
  ∧ (RateLimiter.init ms).last_update = 0
  ∧ s.reset.last_update = 0
  ∧ (ms / 1000 ≤ now → ((RateLimiter.init ms).should_update now).1 = true)
  ∧ (s.min_interval ≤ now → (s.reset.should_update now).1 = true)
  ∧ (s.min_interval ≤ t1 - s.last_update → t2 - t1 < s.min_interval →
       (s.should_update t1).1 = true
       ∧ (((s.should_update t1).2).should_update t2).1 = false)
  ∧ (s.min_interval ≤ t1 - s.last_update → s.min_interval ≤ t3 - t1 →
       (s.should_update t1).1 = true
       ∧ (((s.should_update t1).2).should_update t3).1 = true) := by
  refine ⟨?_, ?_, rfl, rfl, ?_, ?_, ?_, ?_⟩
  · intro hge
    rw [RateLimiter.should_update, if_pos hge]
  · intro hlt
    rw [RateLimiter.should_update, if_neg (not_le.mpr hlt)]
  · intro hle
    rw [RateLimiter.init, RateLimiter.should_update]
    rw [if_pos (by simpa using hle)]
  · intro hle
    rw [RateLimiter.reset, RateLimiter.should_update]
    rw [if_pos (by simpa using hle)]
  · intro hacc hsoon
    have h1 : s.should_update t1 = (true, { s with last_update := t1 }) := by
      rw [RateLimiter.should_update, if_pos hacc]
    refine ⟨by rw [h1], ?_⟩
    rw [h1]
    show (RateLimiter.should_update _ t2).1 = false
    rw [RateLimiter.should_update, if_neg (not_le.mpr hsoon)]
  · intro hacc hwait
    have h1 : s.should_update t1 = (true, { s with last_update := t1 }) := by
      rw [RateLimiter.should_update, if_pos hacc]
    refine ⟨by rw [h1], ?_⟩
    rw [h1]
    show (RateLimiter.should_update _ t3).1 = true
    rw [RateLimiter.should_update, if_pos hwait]

/-- C9 witness: with `min_interval_ms = 150` (so `min_interval = 0.15 s`),
reference `0`, and call times `t1 = 1000`, `t2 = 1000.1`, `t3 = 1000.2`,
every hypothesis of the claim theorem is satisfiable and its conclusions
hold at this concrete input. -/
theorem rate_limiter_iff_and_scenarios_witness :
    ((RateLimiter.init 150).min_interval ≤ 1000 - (RateLimiter.init 150).last_update
     ∧ (10001/10 : ℚ) - 1000 < (RateLimiter.init 150).min_interval
     ∧ (RateLimiter.init 150).min_interval ≤ (5001/5 : ℚ) - 1000)
  ∧ (((RateLimiter.init 150).should_update 1000).1 = true
     ∧ ((((RateLimiter.init 150).should_update 1000).2).should_update (10001/10)).1 = false)
  ∧ (((RateLimiter.init 150).should_update 1000).1 = true
     ∧ ((((RateLimiter.init 150).should_update 1000).2).should_update (5001/5)).1 = true) :=
  ⟨⟨by norm_num [RateLimiter.init], by norm_num [RateLimiter.init],
    by norm_num [RateLimiter.init]⟩,
   (rate_limiter_iff_and_scenarios (RateLimiter.init 150) 150 0 1000 (10001/10) 0).2.2.2.2.2.2.1
     (by norm_num [RateLimiter.init]) (by norm_num [RateLimiter.init]),
   (rate_limiter_iff_and_scenarios (RateLimiter.init 150) 150 0 1000 0 (5001/5)).2.2.2.2.2.2.2
     (by norm_num [RateLimiter.init]) (by norm_num [RateLimiter.init])⟩

/-- C3: the integer level delta of `main.py` lines 177/216,
`int(angle_delta / DEGREES_PER_10_PERCENT * 10)`, is truncation toward zero
of `angle_delta` (the exact ratio `/10·10` is the identity), not rounding:
`9.9` yields `9` (rounding would give `10`) and `−9.9` yields `−9`. -/
theorem delta_level_truncates_toward_zero (d : ℚ) :
    pyInt (d / DEGREES_PER_10_PERCENT * 10) = (if 0 ≤ d then ⌊d⌋ else ⌈d⌉)
  ∧ pyInt ((99/10 : ℚ) / DEGREES_PER_10_PERCENT * 10) = 9
  ∧ pyInt ((-(99/10) : ℚ) / DEGREES_PER_10_PERCENT * 10) = -9
  ∧ round (99/10 : ℚ) = 10 ∧ round (-(99/10) : ℚ) = -10 := by
  have hsame : ∀ q : ℚ, q / DEGREES_PER_10_PERCENT * 10 = q := by
    intro q
    rw [DEGREES_PER_10_PERCENT]
    field_simp
  refine ⟨by rw [hsame]; rfl, ?_, ?_, ?_, ?_⟩
  · rw [hsame, pyInt, if_pos (by norm_num), Int.floor_eq_iff]
    norm_num
  · rw [hsame, pyInt, if_neg (by norm_num)]
    rw [show ((-9 : ℤ)) = -(9 : ℤ) from rfl, Int.ceil_eq_iff]
    norm_num
  · rw [round_eq, Int.floor_eq_iff]
    norm_num
  · rw [round_eq]
    rw [show ((-10 : ℤ)) = -(10 : ℤ) from rfl, Int.floor_eq_iff]
    norm_num

/-- C5: on every non-first call of `RotationCalculator.calculate_roll`
(baseline and last raw angle set), the applied increment is the
shortest-path unwrapped difference: `diff = raw − last`, minus 360 when
`diff > 180`, plus 360 when `diff < −180`; for in-range raw angles the
applied increment is congruent to `raw − last` mod 360 with magnitude at
most 180; raw angles 179° then −179° add +2 (not −358), and −179° then
179° add −2. -/
theorem rotation_roll_unwraps_shortest_path (r : RotationCalculator)
    (h : Hand) (b l : ℚ)
    (hb : r.baseline_angle = some b) (hl : r.last_raw_angle = some l) :
    ((r.calculate_roll h).2.accumulated_angle
       = r.accumulated_angle +
           (if 180 < h.raw_angle - l then h.raw_angle - l - 360
            else if h.raw_angle - l < -180 then h.raw_angle - l + 360
            else h.raw_angle - l))
  ∧ (-180 < h.raw_angle → h.raw_angle ≤ 180 → -180 < l → l ≤ 180 →
       ∃ k : ℤ, (r.calculate_roll h).2.accumulated_angle - r.accumulated_angle
           = h.raw_angle - l + 360 * k
         ∧ |(r.calculate_roll h).2.accumulated_angle - r.accumulated_angle| ≤ 180)
  ∧ (l = 179 → h.raw_angle = -179 →
       (r.calculate_roll h).2.accumulated_angle = r.accumulated_angle + 2)
  ∧ (l = -179 → h.raw_angle = 179 →
       (r.calculate_roll h).2.accumulated_angle = r.accumulated_angle - 2) := by
  have key : (r.calculate_roll h).2.accumulated_angle
      = r.accumulated_angle +
          (if 180 < h.raw_angle - l then h.raw_angle - l - 360
           else if h.raw_angle - l < -180 then h.raw_angle - l + 360
           else h.raw_angle - l) := by
    simp [RotationCalculator.calculate_roll, hb, hl]
  refine ⟨key, ?_, ?_, ?_⟩
  · intro hr1 hr2 hl1 hl2
    rw [key]
    split_ifs with hgt hlt
    · exact ⟨-1, by push_cast; ring,
        abs_le.mpr ⟨by linarith, by linarith⟩⟩
    · exact ⟨1, by push_cast; ring,
        abs_le.mpr ⟨by linarith, by linarith⟩⟩
    · exact ⟨0, by push_cast; ring,
        abs_le.mpr ⟨by linarith, by linarith⟩⟩
  · intro hpl hph
    rw [key, hpl, hph]
    norm_num
    try ring
  · intro hpl hph
    rw [key, hpl, hph]
    norm_num
    try ring

/-- C5 witness: a calculator holding last raw angle 179° (baseline 0) fed a
hand at raw angle −179° accumulates +2°. -/
theorem rotation_roll_unwraps_shortest_path_witness :
    (⟨0, some 179, some 0⟩ : RotationCalculator).baseline_angle = some 0
  ∧ (⟨0, some 179, some 0⟩ : RotationCalculator).last_raw_angle = some 179
  ∧ ((⟨0, some 179, some 0⟩ : RotationCalculator).calculate_roll
       ⟨"Right", [], [], -179⟩).2.accumulated_angle = 0 + 2 :=
  ⟨rfl, rfl,
   (rotation_roll_unwraps_shortest_path ⟨0, some 179, some 0⟩
      ⟨"Right", [], [], -179⟩ 0 179 rfl rfl).2.2.1 rfl rfl⟩

/-- C6: for a hand observation whose fingertip spread lies strictly between
`max_fingertip_spread` and `max_fingertip_spread × 1.2` and whose
fingers-close count meets both the tight bound (`≥ min_fingers_close`) and
the loose bound (`≥ max(2, min_fingers_close − 1)`), `ClawDetector.detect`
returns the previous classification unchanged (true stays true, false
stays false). -/
theorem claw_detect_hysteresis_band (d : ClawDetector) (h : Hand)
    (h1 : d.max_fingertip_spread <
        ClawDetector._calculate_average_fingertip_distance
          h.fingertip_pair_distances)
    (h2 : ClawDetector._calculate_average_fingertip_distance
          h.fingertip_pair_distances
        < d.max_fingertip_spread * HYSTERESIS_SPREAD_MULTIPLIER)
    (h3 : d.min_fingers_close ≤
        ((h.palm_distances.filter
            (fun dist => dist < d.max_palm_distance)).length : ℤ))
    (h4 : max 2 (d.min_fingers_close - (HYSTERESIS_FINGER_REDUCTION : ℤ)) ≤
        ((h.palm_distances.filter
            (fun dist => dist < d.max_palm_distance)).length : ℤ)) :
    (d.detect h).1 = d.is_claw ∧ (d.detect h).2.is_claw = d.is_claw := by
  cases hc : d.is_claw with
  | false =>
      have hres : (d.detect h).1 = false := by
        simp only [ClawDetector.detect, hc, Bool.false_eq_true, if_false,
          decide_eq_false_iff_not]
        rintro ⟨hs, -⟩
        exact absurd h1 (not_lt.mpr hs.le)
      have hres2 : (d.detect h).2.is_claw = (d.detect h).1 := rfl
      exact ⟨hres, by rw [hres2, hres]⟩
  | true =>
      have hres : (d.detect h).1 = true := by
        simp only [ClawDetector.detect, hc, if_true, decide_eq_true_eq]
        exact ⟨h2, h4⟩
      have hres2 : (d.detect h).2.is_claw = (d.detect h).1 := rfl
      exact ⟨hres, by rw [hres2, hres]⟩

/-- C6 witness: with the default thresholds (`max_spread = 0.15`,
`max_palm_distance = 0.2`, `min_fingers_close = 3`) and a hand of spread
0.16 (inside the hysteresis band `(0.15, 0.18)`) with all four fingertips
on the palm reference, a detector previously in claw state stays in claw
state. -/
theorem claw_detect_hysteresis_band_witness :
    ((⟨15/100, 20/100, 3, true⟩ : ClawDetector).max_fingertip_spread <
        ClawDetector._calculate_average_fingertip_distance
          [16/100, 16/100, 16/100, 16/100, 16/100, 16/100]
     ∧ ClawDetector._calculate_average_fingertip_distance
          [16/100, 16/100, 16/100, 16/100, 16/100, 16/100]
        < (15/100 : ℚ) * HYSTERESIS_SPREAD_MULTIPLIER)
  ∧ ((⟨15/100, 20/100, 3, true⟩ : ClawDetector).detect
        ⟨"Right", [16/100, 16/100, 16/100, 16/100, 16/100, 16/100],
          [0, 0, 0, 0], 0⟩).1 = true :=
  ⟨⟨by norm_num [ClawDetector._calculate_average_fingertip_distance],
    by norm_num [ClawDetector._calculate_average_fingertip_distance,
      HYSTERESIS_SPREAD_MULTIPLIER]⟩,
   (claw_detect_hysteresis_band ⟨15/100, 20/100, 3, true⟩
      ⟨"Right", [16/100, 16/100, 16/100, 16/100, 16/100, 16/100],
        [0, 0, 0, 0], 0⟩
      (by norm_num [ClawDetector._calculate_average_fingertip_distance])
      (by norm_num [ClawDetector._calculate_average_fingertip_distance,
        HYSTERESIS_SPREAD_MULTIPLIER])
      (by norm_num) (by norm_num [HYSTERESIS_FINGER_REDUCTION])).1⟩

/-- C10: with `0 ≤ deadzone < 180`, `map_angle_to_level` returns
`current_level` unchanged inside the deadzone, an integer in `[0, 50)` for
every angle below `−deadzone`, an integer in `[50, 100]` for every angle
above `deadzone`, and hence a result in `[0, 100]` whenever
`current_level ∈ [0, 100]`. -/
theorem map_angle_to_level_ranges (angle : ℚ) (current_level : ℤ)
    (deadzone : ℚ) (hd0 : 0 ≤ deadzone) (hd1 : deadzone < 180) :
    (-deadzone ≤ angle → angle ≤ deadzone →
       map_angle_to_level angle current_level deadzone = current_level)
  ∧ (angle < -deadzone →
       0 ≤ map_angle_to_level angle current_level deadzone
       ∧ map_angle_to_level angle current_level deadzone < 50)
  ∧ (deadzone < angle →
       50 ≤ map_angle_to_level angle current_level deadzone
       ∧ map_angle_to_level angle current_level deadzone ≤ 100)
  ∧ (0 ≤ current_level → current_level ≤ 100 →
       0 ≤ map_angle_to_level angle current_level deadzone
       ∧ map_angle_to_level angle current_level deadzone ≤ 100) := by
  have hden : 0 < 180 - deadzone := by linarith
  have hccw : angle < -deadzone →
      0 ≤ map_angle_to_level angle current_level deadzone
      ∧ map_angle_to_level angle current_level deadzone < 50 := by
    intro hlo
    have hnot : ¬ (-deadzone ≤ angle ∧ angle ≤ deadzone) := by
      rintro ⟨ha, -⟩
      linarith
    rw [map_angle_to_level, if_neg hnot, if_pos hlo]
    have ha2lo : -180 ≤ max angle (-180) := le_max_right angle (-180)
    have ha2hi : max angle (-180) < -deadzone := by
      rcases le_or_lt (-180) angle with hc | hc
      · rw [max_eq_left hc]
        exact hlo
      · rw [max_eq_right hc.le]
        linarith
    have hn0 : 0 ≤ (max angle (-180) + 180) / (180 - deadzone) * 50 := by
      have : 0 ≤ (max angle (-180) + 180) / (180 - deadzone) :=
        div_nonneg (by linarith) hden.le
      linarith
    have hn1 : (max angle (-180) + 180) / (180 - deadzone) * 50 < 50 := by
      have hlt1 : (max angle (-180) + 180) / (180 - deadzone) < 1 :=
        (div_lt_one hden).mpr (by linarith)
      linarith
    exact ⟨pyInt_nonneg hn0, pyInt_lt 50 hn0 (by exact_mod_cast hn1)⟩
  have hcw : deadzone < angle →
      50 ≤ map_angle_to_level angle current_level deadzone
      ∧ map_angle_to_level angle current_level deadzone ≤ 100 := by
    intro hhi
    have hnot : ¬ (-deadzone ≤ angle ∧ angle ≤ deadzone) := by
      rintro ⟨-, ha⟩
      linarith
    have hnot2 : ¬ angle < -deadzone := by linarith
    rw [map_angle_to_level, if_neg hnot, if_neg hnot2]
    have ha2lo : deadzone < min angle 180 := lt_min hhi hd1
    have ha2hi : min angle 180 ≤ 180 := min_le_right angle 180
    have hn0 : 0 ≤ (min angle 180 - deadzone) / (180 - deadzone) := by
      apply div_nonneg _ hden.le
      linarith
    have hn1 : (min angle 180 - deadzone) / (180 - deadzone) ≤ 1 :=
      (div_le_one hden).mpr (by linarith)
    have hx0 : (0 : ℚ) ≤ 50 + (min angle 180 - deadzone) / (180 - deadzone) * 50 := by
      linarith
    constructor
    · exact pyInt_ge 50 hx0 (by push_cast; linarith)
    · exact pyInt_le 100 hx0 (by push_cast; linarith)
  refine ⟨?_, hccw, hcw, ?_⟩
  · intro h1 h2
    rw [map_angle_to_level, if_pos ⟨h1, h2⟩]
  · intro hc0 hc1
    rcases lt_or_le angle (-deadzone) with hlo | hge
    · have := hccw hlo
      exact ⟨this.1, by linarith [this.2]⟩
    · rcases le_or_lt angle deadzone with hin | hhi
      · rw [map_angle_to_level, if_pos ⟨hge, hin⟩]
        exact ⟨hc0, hc1⟩
      · have := hcw hhi
        exact ⟨by linarith [this.1], this.2⟩

/-- C10 witness: with deadzone 10° and current level 50, the claim theorem
applies concretely: angle 5° is inside the deadzone (level kept at 50),
angle −90° maps into `[0, 50)`, and angle 90° maps into `[50, 100]`. -/
theorem map_angle_to_level_ranges_witness :
    ((0 : ℚ) ≤ 10 ∧ (10 : ℚ) < 180)
  ∧ map_angle_to_level 5 50 10 = 50
  ∧ (0 ≤ map_angle_to_level (-90) 50 10 ∧ map_angle_to_level (-90) 50 10 < 50)
  ∧ (50 ≤ map_angle_to_level 90 50 10 ∧ map_angle_to_level 90 50 10 ≤ 100) :=
  ⟨⟨by norm_num, by norm_num⟩,
   (map_angle_to_level_ranges 5 50 10 (by norm_num) (by norm_num)).1
     (by norm_num) (by norm_num),
   (map_angle_to_level_ranges (-90) 50 10 (by norm_num) (by norm_num)).2.1
     (by norm_num),
   (map_angle_to_level_ranges 90 50 10 (by norm_num) (by norm_num)).2.2.1
     (by norm_num)⟩

/-- C2 counterexample: with `α = 1`, a freshly-reset smoother, previous
accepted angle `0`, and rotation angle `0.5`, the smoothed angle is `0.5`,
the computed `delta_level` is `0`, yet `handle_volume_control` returns
`0.5` — the new smoothed angle — as the next previous accepted angle, not
the old previous angle `0`.  This refutes the claim that the previous
accepted angle retained for the next frame is unchanged when
`delta_level = 0`. -/
theorem handle_volume_zero_delta_prev_not_retained :
    ((⟨1, none⟩ : ExponentialMovingAverage).update (1/2)).1 = 1/2
  ∧ pyInt ((1/2 - 0 : ℚ) / DEGREES_PER_10_PERCENT * 10) = 0
  ∧ (handle_volume_control (1/2) ⟨1, none⟩ 50 (RateLimiter.init 150) 1000
       (some 0)).ret = 1/2
  ∧ (1/2 : ℚ) ≠ 0 := by
  have hz : pyInt ((1/2 - 0 : ℚ) / DEGREES_PER_10_PERCENT * 10) = 0 := by
    rw [DEGREES_PER_10_PERCENT, pyInt, if_pos (by norm_num)]
    norm_num
  refine ⟨rfl, hz, ?_, by norm_num⟩
  simp only [handle_volume_control]
  rw [show ((⟨1, none⟩ : ExponentialMovingAverage).update (1/2)).1 = 1/2
      from rfl]
  rw [if_neg (not_not_intro hz)]

/-- C2 (amended): for every call of a control handler with a previous
accepted angle present, if the computed `delta_level` is 0 then no
`set_level` call is made, `get_level` is never called, the rate limiter is
not consulted (its state is unchanged), and the handler returns the new
smoothed angle — which `main` stores as the next previous accepted angle,
replacing the old one. -/
theorem handler_zero_delta_no_action (a : ℚ)
    (s : ExponentialMovingAverage) (cur cur2 : ℤ) (lim : RateLimiter)
    (now : ℚ) (p : ℚ)
    (hz : pyInt (((s.update a).1 - p) / DEGREES_PER_10_PERCENT * 10) = 0) :
    handle_volume_control a s cur lim now (some p)
      = ⟨(s.update a).1, (s.update a).2, lim, false, none⟩
  ∧ handle_brightness_control a s cur2 lim now (some p)
      = ⟨(s.update a).1, (s.update a).2, lim, false, none⟩ := by
  constructor
  · simp only [handle_volume_control]
    simp [hz]
  · simp only [handle_brightness_control]
    simp [hz]

/-- C2 witness: the amended theorem applied at the counterexample's input
(`α = 1`, fresh smoother, previous angle `0`, rotation angle `0.5`): the
delta is 0 and the handler performs no sink call, leaves the limiter
untouched, and returns the smoothed angle `0.5`. -/
theorem handler_zero_delta_no_action_witness :
    pyInt ((((⟨1, none⟩ : ExponentialMovingAverage).update (1/2)).1 - 0)
        / DEGREES_PER_10_PERCENT * 10) = 0
  ∧ handle_volume_control (1/2) ⟨1, none⟩ 50 (RateLimiter.init 150) 1000
       (some 0)
     = ⟨((⟨1, none⟩ : ExponentialMovingAverage).update (1/2)).1,
        ((⟨1, none⟩ : ExponentialMovingAverage).update (1/2)).2,
        RateLimiter.init 150, false, none⟩ :=
  have hz : pyInt ((((⟨1, none⟩ : ExponentialMovingAverage).update (1/2)).1 - 0)
      / DEGREES_PER_10_PERCENT * 10) = 0 := by
    rw [show ((⟨1, none⟩ : ExponentialMovingAverage).update (1/2)).1 = 1/2
        from rfl]
    rw [DEGREES_PER_10_PERCENT, pyInt, if_pos (by norm_num)]
    norm_num
  ⟨hz,
   (handler_zero_delta_no_action (1/2) ⟨1, none⟩ 50 50
      (RateLimiter.init 150) 1000 0 hz).1⟩

/-- C8: every level a control handler passes to `set_level` is already
clamped into the channel's range — `[0, 100]` for volume, `[5, 100]` for
brightness — and whenever a previous angle is present and the computed
delta is nonzero, `get_level()` is called before the candidate is
composed. -/
theorem handler_set_level_clamped (a : ℚ) (s : ExponentialMovingAverage)
    (cur : ℤ) (lim : RateLimiter) (now : ℚ) (p : Option ℚ) :
    (∀ v, (handle_volume_control a s cur lim now p).sent_level = some v →
        0 ≤ v ∧ v ≤ 100)
  ∧ (∀ v, (handle_brightness_control a s cur lim now p).sent_level = some v →
        5 ≤ v ∧ v ≤ 100)
  ∧ (∀ q, p = some q →
        pyInt (((s.update a).1 - q) / DEGREES_PER_10_PERCENT * 10) ≠ 0 →
        (handle_volume_control a s cur lim now p).got_level = true
        ∧ (handle_brightness_control a s cur lim now p).got_level = true) := by
  refine ⟨?_, ?_, ?_⟩
  · intro v hv
    cases p with
    | none => simp [handle_volume_control] at hv
    | some q =>
        simp only [handle_volume_control] at hv
        split_ifs at hv with hnz hok
        · simp only [HandlerResult.mk.injEq] at hv
          rcases hv with ⟨hveq⟩
          exact ⟨le_max_left _ _, max_le (by norm_num) (min_le_left 100 _)⟩
  · intro v hv
    cases p with
    | none => simp [handle_brightness_control] at hv
    | some q =>
        simp only [handle_brightness_control] at hv
        split_ifs at hv with hnz hok
        · simp only [HandlerResult.mk.injEq] at hv
          rcases hv with ⟨hveq⟩
          exact ⟨le_max_left _ _, max_le (by norm_num) (min_le_left 100 _)⟩
  · rintro q rfl hnz
    constructor
    · simp only [handle_volume_control]
      split_ifs with hok
      · rfl
      · rfl
    · simp only [handle_brightness_control]
      split_ifs with hok
      · rfl
      · rfl

/-- C4 counterexample: on a frame with no hand observed at all, the claim
says the channel's smoother is reset and its previous accepted angle
cleared to none; but `main` only resets the shared rotation calculator on
such a frame — starting from a state whose brightness smoother holds 5 and
whose previous brightness angle is 5, both survive the empty frame
unchanged (and so does the volume side). -/
theorem frame_without_hands_keeps_channel_state :
    (process_frame { init_state with
        brightness_smoother := ⟨3/10, some 5⟩
        prev_brightness_angle := some 5
        volume_smoother := ⟨3/10, some 7⟩
        prev_volume_angle := some 7 } [] 1000).brightness_smoother.value
      = some 5
  ∧ (process_frame { init_state with
        brightness_smoother := ⟨3/10, some 5⟩
        prev_brightness_angle := some 5
        volume_smoother := ⟨3/10, some 7⟩
        prev_volume_angle := some 7 } [] 1000).prev_brightness_angle
      = some 5
  ∧ (process_frame { init_state with
        brightness_smoother := ⟨3/10, some 5⟩
        prev_brightness_angle := some 5
        volume_smoother := ⟨3/10, some 7⟩
        prev_volume_angle := some 7 } [] 1000).volume_smoother.value
      = some 7
  ∧ (process_frame { init_state with
        brightness_smoother := ⟨3/10, some 5⟩
        prev_brightness_angle := some 5
        volume_smoother := ⟨3/10, some 7⟩
        prev_volume_angle := some 7 } [] 1000).prev_volume_angle
      = some 7
  ∧ (process_frame { init_state with
        brightness_smoother := ⟨3/10, some 5⟩
        prev_brightness_angle := some 5
        volume_smoother := ⟨3/10, some 7⟩
        prev_volume_angle := some 7 } [] 1000).rotation_calc
      = RotationCalculator.init
  ∧ some (5 : ℚ) ≠ (none : Option ℚ) := by
  refine ⟨rfl, rfl, rfl, rfl, rfl, by simp⟩

/-- C4 (amended): on a frame whose single observed hand of a given side is
not classified claw, that side's channel goes idle — the shared rotation
calculator is reset, the side's smoother is reset, its previous accepted
angle is cleared, its rate limiter is left untouched (and the other side's
smoother and previous angle are untouched); on a frame with no hand at all,
only the shared rotation calculator is reset and every other piece of
state is unchanged. -/
theorem idle_transition_resets (st : MainState) (h : Hand) (now : ℚ)
    (hnc : (st.claw_detector.detect h).1 = false) :
    (h.handedness = "Right" →
        (process_frame st [h] now).rotation_calc = RotationCalculator.init
      ∧ (process_frame st [h] now).volume_smoother.value = none
      ∧ (process_frame st [h] now).prev_volume_angle = none
      ∧ (process_frame st [h] now).volume_limiter = st.volume_limiter
      ∧ (process_frame st [h] now).brightness_smoother = st.brightness_smoother
      ∧ (process_frame st [h] now).prev_brightness_angle
          = st.prev_brightness_angle
      ∧ (process_frame st [h] now).brightness_limiter = st.brightness_limiter)
  ∧ (h.handedness = "Left" →
        (process_frame st [h] now).rotation_calc = RotationCalculator.init
      ∧ (process_frame st [h] now).brightness_smoother.value = none
      ∧ (process_frame st [h] now).prev_brightness_angle = none
      ∧ (process_frame st [h] now).brightness_limiter = st.brightness_limiter
      ∧ (process_frame st [h] now).volume_smoother = st.volume_smoother
      ∧ (process_frame st [h] now).prev_volume_angle = st.prev_volume_angle
      ∧ (process_frame st [h] now).volume_limiter = st.volume_limiter)
  ∧ process_frame st [] now
      = { st with rotation_calc := RotationCalculator.init } := by
  have hsingle : process_frame st [h] now = process_hand st now h := by
    simp [process_frame]
  refine ⟨?_, ?_, rfl⟩
  · intro hr
    rw [hsingle]
    simp only [process_hand, hnc, Bool.false_eq_true, if_false, hr]
    simp [ExponentialMovingAverage.reset, RotationCalculator.reset]
  · intro hl
    rw [hsingle]
    simp only [process_hand, hnc, Bool.false_eq_true, if_false, hl]
    simp [ExponentialMovingAverage.reset, RotationCalculator.reset]

/-- C4 witness: the amended theorem applied to a widely-spread (non-claw)
right hand arriving at a state holding volume-channel values: the rotation
calculator and volume smoother are reset, the previous volume angle
cleared, both limiters untouched. -/
theorem idle_transition_resets_witness :
    (({ init_state with
          volume_smoother := ⟨3/10, some 7⟩
          prev_volume_angle := some 7 } : MainState).claw_detector.detect
        (openHand "Right")).1 = false
  ∧ (openHand "Right").handedness = "Right"
  ∧ ((process_frame { init_state with
          volume_smoother := ⟨3/10, some 7⟩
          prev_volume_angle := some 7 } [openHand "Right"] 1000).rotation_calc
        = RotationCalculator.init
     ∧ (process_frame { init_state with
          volume_smoother := ⟨3/10, some 7⟩
          prev_volume_angle := some 7 } [openHand "Right"]
            1000).volume_smoother.value = none
     ∧ (process_frame { init_state with
          volume_smoother := ⟨3/10, some 7⟩
          prev_volume_angle := some 7 } [openHand "Right"]
            1000).prev_volume_angle = none
     ∧ (process_frame { init_state with
          volume_smoother := ⟨3/10, some 7⟩
          prev_volume_angle := some 7 } [openHand "Right"]
            1000).volume_limiter
        = ({ init_state with
          volume_smoother := ⟨3/10, some 7⟩
          prev_volume_angle := some 7 } : MainState).volume_limiter
     ∧ (process_frame { init_state with
          volume_smoother := ⟨3/10, some 7⟩
          prev_volume_angle := some 7 } [openHand "Right"]
            1000).brightness_smoother
        = ({ init_state with
          volume_smoother := ⟨3/10, some 7⟩
          prev_volume_angle := some 7 } : MainState).brightness_smoother
     ∧ (process_frame { init_state with
          volume_smoother := ⟨3/10, some 7⟩
          prev_volume_angle := some 7 } [openHand "Right"]
            1000).prev_brightness_angle
        = ({ init_state with
          volume_smoother := ⟨3/10, some 7⟩
          prev_volume_angle := some 7 } : MainState).prev_brightness_angle
     ∧ (process_frame { init_state with
          volume_smoother := ⟨3/10, some 7⟩
          prev_volume_angle := some 7 } [openHand "Right"]
            1000).brightness_limiter
        = ({ init_state with
          volume_smoother := ⟨3/10, some 7⟩
          prev_volume_angle := some 7 } : MainState).brightness_limiter) :=
  have hnc : (({ init_state with
          volume_smoother := ⟨3/10, some 7⟩
          prev_volume_angle := some 7 } : MainState).claw_detector.detect
        (openHand "Right")).1 = false := by
    simp only [ClawDetector.detect, init_state, ClawDetector.init, openHand,
      Bool.false_eq_true, if_false, decide_eq_false_iff_not]
    rintro ⟨hs, -⟩
    norm_num [ClawDetector._calculate_average_fingertip_distance] at hs
  ⟨hnc, rfl,
   (idle_transition_resets { init_state with
        volume_smoother := ⟨3/10, some 7⟩
        prev_volume_angle := some 7 } (openHand "Right") 1000 hnc).1 rfl⟩

/-- Processing a single hand touches only the shared detector/rotation
state and the fields of its own side's channel: a `Right` hand leaves every
brightness-channel field unchanged, a `Left` hand every volume-channel
field. -/
theorem process_hand_preserves_other_side (st : MainState) (now : ℚ)
    (h : Hand) :
    (h.handedness = "Right" →
        (process_hand st now h).brightness_smoother = st.brightness_smoother
      ∧ (process_hand st now h).brightness_limiter = st.brightness_limiter
      ∧ (process_hand st now h).prev_brightness_angle
          = st.prev_brightness_angle
      ∧ (process_hand st now h).brightness_level = st.brightness_level)
  ∧ (h.handedness = "Left" →
        (process_hand st now h).volume_smoother = st.volume_smoother
      ∧ (process_hand st now h).volume_limiter = st.volume_limiter
      ∧ (process_hand st now h).prev_volume_angle = st.prev_volume_angle
      ∧ (process_hand st now h).volume_level = st.volume_level) := by
  constructor
  · intro hr
    simp only [process_hand, hr]
    split_ifs <;> simp_all
  · intro hl
    simp only [process_hand, hl]
    split_ifs <;> simp_all

/-- C1 (amended): the per-channel pieces of state — smoother, rate
limiter, previous accepted angle, and sink level — really are mutually
independent: a frame containing only Right hands leaves every
brightness-channel field unchanged, and a frame containing only Left hands
leaves every volume-channel field unchanged.  (The claw-hysteresis bit and
the rotation state are NOT per-channel: `main` constructs a single
`ClawDetector` and a single `RotationCalculator` shared by both sides —
see the counterexample.) -/
theorem channels_per_side_fields_independent (st : MainState)
    (hands : List Hand) (now : ℚ) :
    ((∀ h ∈ hands, h.handedness = "Right") →
        (process_frame st hands now).brightness_smoother
          = st.brightness_smoother
      ∧ (process_frame st hands now).brightness_limiter
          = st.brightness_limiter
      ∧ (process_frame st hands now).prev_brightness_angle
          = st.prev_brightness_angle
      ∧ (process_frame st hands now).brightness_level = st.brightness_level)
  ∧ ((∀ h ∈ hands, h.handedness = "Left") →
        (process_frame st hands now).volume_smoother = st.volume_smoother
      ∧ (process_frame st hands now).volume_limiter = st.volume_limiter
      ∧ (process_frame st hands now).prev_volume_angle = st.prev_volume_angle
      ∧ (process_frame st hands now).volume_level = st.volume_level) := by
  have keyR : ∀ (l : List Hand) (s : MainState),
      (∀ h ∈ l, h.handedness = "Right") →
      ((l.foldl (fun s h => process_hand s now h) s).brightness_smoother
          = s.brightness_smoother
       ∧ (l.foldl (fun s h => process_hand s now h) s).brightness_limiter
          = s.brightness_limiter
       ∧ (l.foldl (fun s h => process_hand s now h) s).prev_brightness_angle
          = s.prev_brightness_angle
       ∧ (l.foldl (fun s h => process_hand s now h) s).brightness_level
          = s.brightness_level) := by
    intro l
    induction l with
    | nil => exact fun s _ => ⟨rfl, rfl, rfl, rfl⟩
    | cons h t ih =>
        intro s hall
        have hh := hall h (List.mem_cons_self h t)
        have ht : ∀ x ∈ t, x.handedness = "Right" :=
          fun x hx => hall x (List.mem_cons_of_mem h hx)
        have hstep := (process_hand_preserves_other_side s now h).1 hh
        have hrest := ih (process_hand s now h) ht
        simp only [List.foldl_cons]
        exact ⟨hrest.1.trans hstep.1, hrest.2.1.trans hstep.2.1,
          hrest.2.2.1.trans hstep.2.2.1, hrest.2.2.2.trans hstep.2.2.2⟩
  have keyL : ∀ (l : List Hand) (s : MainState),
      (∀ h ∈ l, h.handedness = "Left") →
      ((l.foldl (fun s h => process_hand s now h) s).volume_smoother
          = s.volume_smoother
       ∧ (l.foldl (fun s h => process_hand s now h) s).volume_limiter
          = s.volume_limiter
       ∧ (l.foldl (fun s h => process_hand s now h) s).prev_volume_angle
          = s.prev_volume_angle
       ∧ (l.foldl (fun s h => process_hand s now h) s).volume_level
          = s.volume_level) := by
    intro l
    induction l with
    | nil => exact fun s _ => ⟨rfl, rfl, rfl, rfl⟩
    | cons h t ih =>
        intro s hall
        have hh := hall h (List.mem_cons_self h t)
        have ht : ∀ x ∈ t, x.handedness = "Left" :=
          fun x hx => hall x (List.mem_cons_of_mem h hx)
        have hstep := (process_hand_preserves_other_side s now h).2 hh
        have hrest := ih (process_hand s now h) ht
        simp only [List.foldl_cons]
        exact ⟨hrest.1.trans hstep.1, hrest.2.1.trans hstep.2.1,
          hrest.2.2.1.trans hstep.2.2.1, hrest.2.2.2.trans hstep.2.2.2⟩
  cases hands with
  | nil => exact ⟨fun _ => ⟨rfl, rfl, rfl, rfl⟩, fun _ => ⟨rfl, rfl, rfl, rfl⟩⟩
  | cons h t =>
      constructor
      · intro hall
        have : process_frame st (h :: t) now
            = (h :: t).foldl (fun s x => process_hand s now x) st := by
          simp [process_frame]
        rw [this]
        exact keyR (h :: t) st hall
      · intro hall
        have : process_frame st (h :: t) now
            = (h :: t).foldl (fun s x => process_hand s now x) st := by
          simp [process_frame]
        rw [this]
        exact keyL (h :: t) st hall

/-- C1 witness: a frame holding one Right claw hand leaves every
brightness-channel field of the freshly initialized state unchanged. -/
theorem channels_per_side_fields_independent_witness :
    (∀ h ∈ [clawHand "Right" 10], h.handedness = "Right")
  ∧ ((process_frame init_state [clawHand "Right" 10] 1000).brightness_smoother
        = init_state.brightness_smoother
     ∧ (process_frame init_state [clawHand "Right" 10] 1000).brightness_limiter
        = init_state.brightness_limiter
     ∧ (process_frame init_state
          [clawHand "Right" 10] 1000).prev_brightness_angle
        = init_state.prev_brightness_angle
     ∧ (process_frame init_state [clawHand "Right" 10] 1000).brightness_level
        = init_state.brightness_level) :=
  have hall : ∀ h ∈ [clawHand "Right" 10], h.handedness = "Right" := by
    intro h hh
    rw [List.mem_singleton] at hh
    rw [hh]
    rfl
  ⟨hall,
   (channels_per_side_fields_independent init_state
      [clawHand "Right" 10] 1000).1 hall⟩

/-- C1 counterexample: the channels are NOT mutually independent, because
`main` constructs one shared `RotationCalculator` (and one shared
`ClawDetector`) for both hands.  Concretely: processing a frame holding
only a Right claw hand at raw angle 10° mutates the rotation state; a
subsequent Left claw hand at raw angle 50° then reads that state and ends
with previous brightness angle −40°, whereas the same Left hand arriving
at the untouched initial state yields 0° — the Right-hand processing
changed the Left (brightness) channel's resulting state. -/
theorem shared_rotation_state_breaks_independence :
    (process_frame init_state [clawHand "Right" 10] 1000).rotation_calc
      ≠ init_state.rotation_calc
  ∧ (process_frame (process_frame init_state [clawHand "Right" 10] 1000)
       [clawHand "Left" 50] 1000).prev_brightness_angle = some (-40)
  ∧ (process_frame init_state
       [clawHand "Left" 50] 1000).prev_brightness_angle = some 0
  ∧ some (-40 : ℚ) ≠ some (0 : ℚ) := by
  refine ⟨?_, ?_, ?_, by simp⟩
  · norm_num [process_frame, process_hand, init_state, clawHand,
      ClawDetector.detect, ClawDetector.init,
      ClawDetector._calculate_average_fingertip_distance,
      HYSTERESIS_SPREAD_MULTIPLIER, HYSTERESIS_FINGER_REDUCTION,
      RotationCalculator.calculate_roll, RotationCalculator.init,
      RotationCalculator.reset, ExponentialMovingAverage.init,
      ExponentialMovingAverage.update, ExponentialMovingAverage.reset,
      RateLimiter.init, RateLimiter.should_update,
      handle_volume_control, handle_brightness_control,
      DEGREES_PER_10_PERCENT, pyInt, List.foldl, List.filter,
      Option.some_ne_none, reduceCtorEq]
  · norm_num [process_frame, process_hand, init_state, clawHand,
      ClawDetector.detect, ClawDetector.init,
      ClawDetector._calculate_average_fingertip_distance,
      HYSTERESIS_SPREAD_MULTIPLIER, HYSTERESIS_FINGER_REDUCTION,
      RotationCalculator.calculate_roll, RotationCalculator.init,
      RotationCalculator.reset, ExponentialMovingAverage.init,
      ExponentialMovingAverage.update, ExponentialMovingAverage.reset,
      RateLimiter.init, RateLimiter.should_update,
      handle_volume_control, handle_brightness_control,
      DEGREES_PER_10_PERCENT, pyInt, List.foldl, List.filter,
      Option.some_ne_none, reduceCtorEq]
    simp
  · norm_num [process_frame, process_hand, init_state, clawHand,
      ClawDetector.detect, ClawDetector.init,
      ClawDetector._calculate_average_fingertip_distance,
      HYSTERESIS_SPREAD_MULTIPLIER, HYSTERESIS_FINGER_REDUCTION,
      RotationCalculator.calculate_roll, RotationCalculator.init,
      RotationCalculator.reset, ExponentialMovingAverage.init,
      ExponentialMovingAverage.update, ExponentialMovingAverage.reset,
      RateLimiter.init, RateLimiter.should_update,
      handle_volume_control, handle_brightness_control,
      DEGREES_PER_10_PERCENT, pyInt, List.foldl, List.filter,
      Option.some_ne_none, reduceCtorEq]
    simp

/-- C8 witness: with `α = 1`, previous angle 0°, rotation angle 20° and
current level 95, both handlers compose 95 + 20, clamp it to their channel
range (100 in both cases), pass it to `set_level`, and called `get_level`
first; the claim theorem's bounds apply at this concrete input. -/
theorem handler_set_level_clamped_witness :
    (handle_volume_control 20 ⟨1, none⟩ 95 (RateLimiter.init 150) 1000
        (some 0)).sent_level = some 100
  ∧ ((0 : ℤ) ≤ 100 ∧ (100 : ℤ) ≤ 100)
  ∧ (handle_brightness_control 20 ⟨1, none⟩ 95 (RateLimiter.init 150) 1000
        (some 0)).sent_level = some 100
  ∧ ((5 : ℤ) ≤ 100 ∧ (100 : ℤ) ≤ 100)
  ∧ pyInt ((((⟨1, none⟩ : ExponentialMovingAverage).update 20).1 - 0)
        / DEGREES_PER_10_PERCENT * 10) ≠ 0
  ∧ ((handle_volume_control 20 ⟨1, none⟩ 95 (RateLimiter.init 150) 1000
        (some 0)).got_level = true
     ∧ (handle_brightness_control 20 ⟨1, none⟩ 95 (RateLimiter.init 150) 1000
        (some 0)).got_level = true) :=
  have hnz : pyInt ((((⟨1, none⟩ : ExponentialMovingAverage).update 20).1 - 0)
      / DEGREES_PER_10_PERCENT * 10) ≠ 0 := by
    rw [show ((⟨1, none⟩ : ExponentialMovingAverage).update 20).1 = 20
        from rfl]
    rw [DEGREES_PER_10_PERCENT, pyInt, if_pos (by norm_num)]
    norm_num
  have hsentv : (handle_volume_control 20 ⟨1, none⟩ 95 (RateLimiter.init 150)
      1000 (some 0)).sent_level = some 100 := by
    norm_num [handle_volume_control, ExponentialMovingAverage.update,
      RateLimiter.init, RateLimiter.should_update, DEGREES_PER_10_PERCENT,
      pyInt]
  have hsentb : (handle_brightness_control 20 ⟨1, none⟩ 95
      (RateLimiter.init 150) 1000 (some 0)).sent_level = some 100 := by
    norm_num [handle_brightness_control, ExponentialMovingAverage.update,
      RateLimiter.init, RateLimiter.should_update, DEGREES_PER_10_PERCENT,
      pyInt]
  ⟨hsentv,
   (handler_set_level_clamped 20 ⟨1, none⟩ 95 (RateLimiter.init 150) 1000
      (some 0)).1 100 hsentv,
   hsentb,
   (handler_set_level_clamped 20 ⟨1, none⟩ 95 (RateLimiter.init 150) 1000
      (some 0)).2.1 100 hsentb,
   hnz,
   (handler_set_level_clamped 20 ⟨1, none⟩ 95 (RateLimiter.init 150) 1000
      (some 0)).2.2 0 rfl hnz⟩
